import Mathlib

/-!
Verification of the keywork TUI state-derivation and command-synthesis code.

This file gives a shallow embedding of the relevant parts of
src/keywork/tui/state.py, src/keywork/tui/sandbox.py and
src/keywork/tui/terminal.py, and proves properties of the embedded
definitions.  Filesystem reads are modelled by passing file contents as
Option String (none = file missing); environment variables and subprocess
outcomes are fields of explicit world records.  Python strings are modelled
over List Char; every definition is structurally recursive so that concrete
inputs evaluate inside the kernel.
-/

/-! ## Python string primitives -/

/-- Whitespace test used for the Python s.strip and regex backslash-s
classes.  Char.isWhitespace covers space, tab, newline and carriage
return; the rarer form-feed and vertical-tab characters are not modelled. -/
def isPySpace (c : Char) : Bool := c.isWhitespace

/-- Python str.strip: drop leading and trailing whitespace. -/
def pyStrip (s : String) : String :=
  ⟨((s.data.dropWhile isPySpace).reverse.dropWhile isPySpace).reverse⟩

/-- Python str.startswith, via a character-list computation. -/
def pyStartsWith (s pre : String) : Bool := pre.data.isPrefixOf s.data

/-- Split a character list at newline characters (auxiliary for
pySplitlines). -/
def splitNl (cs : List Char) : List (List Char) :=
  cs.foldr (fun c groups =>
    if c == '\n' then [] :: groups
    else match groups with
      | g :: gs => (c :: g) :: gs
      | [] => [[c]]) [[]]

/-- Python str.splitlines, modelled for newline-terminated text: split on
the newline character and drop the final empty piece when the text ends
with a newline.  (Python also splits on rarer terminators such as a bare
carriage return; the documents this repository reads are newline
separated.)  This also matches how a MULTILINE regex anchors at line
starts within the same text. -/
def pySplitlines (s : String) : List String :=
  match s.data with
  | [] => []
  | _ =>
    let gs := (splitNl s.data).map (fun g => (⟨g⟩ : String))
    match s.data.getLast? with
    | some '\n' => gs.dropLast
    | _ => gs

/-- Split a character list at the first occurrence of a character,
returning the pieces before and after it. -/
def splitAtFirst (c : Char) : List Char → Option (List Char × List Char)
  | [] => none
  | x :: xs =>
    if x == c then some ([], xs)
    else match splitAtFirst c xs with
      | some (a, b) => some (x :: a, b)
      | none => none

/-- Python str.partition at a single-character separator, keeping only the
head and tail pieces (the separator itself is discarded, as in
key, _, value = line.partition of a colon). -/
def pyPartition (s : String) (c : Char) : String × String :=
  match splitAtFirst c s.data with
  | some (a, b) => (⟨a⟩, ⟨b⟩)
  | none => (s, "")

/-- Word-character test for the regex backslash-w and backslash-b classes,
restricted to ASCII letters, digits and underscore (the documents use
ASCII identifiers). -/
def pyIsWordChar (c : Char) : Bool := c.isAlphanum || c == '_'

/-- Insertion into a Python dict modelled as an association list: an
existing key keeps its position and gets the new value, a new key is
appended.  Lookup order is irrelevant, iteration order is insertion
order, matching dict semantics. -/
def dictInsert : List (String × String) → String → String → List (String × String)
  | [], k, v => [(k, v)]
  | (k₀, v₀) :: rest, k, v =>
    if k₀ == k then (k₀, v) :: rest else (k₀, v₀) :: dictInsert rest k v

/-- Python dict.get with a default. -/
def dictGet : List (String × String) → String → String → String
  | [], _, dflt => dflt
  | (k₀, v) :: rest, k, dflt => if k₀ == k then v else dictGet rest k dflt

/-! ## Python numeric literal parsing -/

/-- Decimal value of a digit list. -/
def digitsVal (ds : List Char) : Nat :=
  ds.foldl (fun a c => a * 10 + (c.toNat - 48)) 0

/-- Collect a run of decimal digits in which single underscores may appear
between digits (Python numeric literal grouping).  Returns the digits
(with underscores removed) and the unconsumed remainder.  The caller
guarantees the input starts with a digit; an underscore not surrounded by
digits ends the run, leaving it (and what follows) unconsumed. -/
def digitRun : List Char → List Char × List Char
  | [] => ([], [])
  | [c] => if c.isDigit then ([c], []) else ([], [c])
  | c :: d :: rest =>
    if c.isDigit then
      let (ds, r) := digitRun (d :: rest)
      (c :: ds, r)
    else if c == '_' && d.isDigit then
      let (ds, r) := digitRun rest
      (d :: ds, r)
    else ([], c :: d :: rest)

/-- Parse a digit group that must start with a digit; none when the input
does not start with a digit. -/
def digitGroup? : List Char → Option (List Char × List Char)
  | [] => none
  | c :: cs => if c.isDigit then some (digitRun (c :: cs)) else none

/-- Result of a successful Python float conversion.  A finite value is
kept exactly as a decimal mantissa and a power of ten (value =
mantissa * 10 ^ exp10); this avoids IEEE rounding, which no consumer of
the parsed cost inspects. -/
inductive PyFloat where
  | num (mantissa : Int) (exp10 : Int)
  | inf (pos : Bool)
  | nan
deriving DecidableEq, Repr

/-- Python float(s): strip whitespace, optional sign, then either a
case-insensitive inf, infinity or nan word, or a decimal literal
digits [. digits] [(e|E) [sign] digits] with at least one mantissa digit
and underscores allowed between digits.  none models the ValueError
raised on any other input. -/
def pyFloatOfString? (s : String) : Option PyFloat :=
  let cs₀ := (pyStrip s).data
  let signed := match cs₀ with
    | '+' :: r => (false, r)
    | '-' :: r => (true, r)
    | _ => (false, cs₀)
  let neg := signed.1
  let cs := signed.2
  let lower := cs.map Char.toLower
  if lower == "inf".data || lower == "infinity".data then some (.inf (!neg))
  else if lower == "nan".data then some .nan
  else
    let ip := match digitGroup? cs with
      | some (d, r) => (d, r)
      | none => (([] : List Char), cs)
    let intDs := ip.1
    let fp := match ip.2 with
      | '.' :: r =>
        (match digitGroup? r with
         | some (d, r₂) => (d, r₂)
         | none => (([] : List Char), r))
      | _ => (([] : List Char), ip.2)
    let fracDs := fp.1
    let ep : Option (Bool × List Char × List Char) := match fp.2 with
      | c :: r =>
        if c == 'e' || c == 'E' then
          match r with
          | '+' :: r₂ =>
            (match digitGroup? r₂ with
             | some (d, r₃) => some (false, d, r₃)
             | none => none)
          | '-' :: r₂ =>
            (match digitGroup? r₂ with
             | some (d, r₃) => some (true, d, r₃)
             | none => none)
          | _ =>
            (match digitGroup? r with
             | some (d, r₃) => some (false, d, r₃)
             | none => none)
        else some (false, [], c :: r)
      | [] => some (false, [], [])
    match ep with
    | none => none
    | some (eneg, expDs, leftover) =>
      if leftover.isEmpty && !(intDs.isEmpty && fracDs.isEmpty) then
        let mag : Nat := digitsVal intDs * 10 ^ fracDs.length + digitsVal fracDs
        let mant : Int := if neg then -(mag : Int) else (mag : Int)
        let ex : Int :=
          (if eneg then -(digitsVal expDs : Int) else (digitsVal expDs : Int))
            - (fracDs.length : Int)
        some (.num mant ex)
      else none

/-- Python int(s): strip whitespace, optional sign, digits with
underscores allowed between digits, nothing else.  none models
ValueError. -/
def pyIntOfString? (s : String) : Option Int :=
  let cs₀ := (pyStrip s).data
  let signed := match cs₀ with
    | '+' :: r => (false, r)
    | '-' :: r => (true, r)
    | _ => (false, cs₀)
  match digitGroup? signed.2 with
  | some (ds, []) => some (if signed.1 then -(digitsVal ds : Int) else (digitsVal ds : Int))
  | _ => none

/-! ## state.py: data model (src/keywork/tui/state.py lines 32-72) -/

/-- GoalState dataclass (state.py lines 32-47).  The path field, a
filesystem handle used only for display, is not modelled. -/
structure GoalState where
  name : String
  status : String := "created"
  priority : String := "normal"
  last_activity : String := ""
  completed_tasks : Nat := 0
  total_tasks : Nat := 0
  blocked_tasks : Nat := 0
  review_tasks : Nat := 0
  total_cost_usd : PyFloat := .num 0 0
  has_replan : Bool := false
  has_feedback : Bool := false
  prd_summary : String := ""
  repo_name : String := ""
deriving DecidableEq, Repr

/-- GoalState.progress property (state.py lines 49-53). -/
def GoalState.progress (g : GoalState) : String :=
  if g.total_tasks = 0 then "no tasks"
  else toString g.completed_tasks ++ "/" ++ toString g.total_tasks

/-- AttentionItem dataclass (state.py lines 66-72). -/
structure AttentionItem where
  goal_name : String
  item_type : String
  title : String
  task_id : Option String := none
  question_id : Option String := none
deriving DecidableEq, Repr

/-! ## state.py: parsing functions -/

/-- parse_state_md (state.py lines 75-85): strip each line, keep lines
that contain a colon and do not start with a hash mark, split at the
first colon, strip key and value, last write wins.  The file content is
passed in as Option String, none meaning the file does not exist. -/
def parse_state_md (file : Option String) : List (String × String) :=
  match file with
  | none => []
  | some text =>
    (pySplitlines text).foldl (fun result rawLine =>
      let line := pyStrip rawLine
      if line.data.contains ':' && !(pyStartsWith line "#") then
        let kv := pyPartition line ':'
        dictInsert result (pyStrip kv.1) (pyStrip kv.2)
      else result) []

/-- count_tasks (state.py lines 142-151): counts of lines starting with
the four task prefixes, via MULTILINE regex findall which counts exactly
the lines whose text starts with the given pattern.  Returns
(total, completed, blocked, review). -/
def count_tasks (file : Option String) : Nat × Nat × Nat × Nat :=
  match file with
  | none => (0, 0, 0, 0)
  | some content =>
    ((pySplitlines content).countP (fun l => pyStartsWith l "- ["),
     (pySplitlines content).countP (fun l => pyStartsWith l "- [x]"),
     (pySplitlines content).countP (fun l => pyStartsWith l "- [BLOCKED"),
     (pySplitlines content).countP (fun l => pyStartsWith l "- [REVIEW"))

/-- get_prd_summary (state.py lines 154-162): first stripped line that is
non-empty, does not start with a hash mark and does not start with an
HTML comment opener, truncated to 120 characters. -/
def get_prd_summary (file : Option String) : String :=
  match file with
  | none => ""
  | some text =>
    match ((pySplitlines text).map pyStrip).find?
        (fun line => line != "" && !(pyStartsWith line "#") && !(pyStartsWith line "<!--")) with
    | some line => ⟨line.data.take 120⟩
    | none => ""

/-- Inputs of load_goal: the directory name and the files it reads.
Marker files are modelled by existence booleans, content files by
Option String. -/
structure GoalDir where
  name : String
  stateMd : Option String
  implementationMd : Option String
  hasReplanFile : Bool
  hasFeedbackFile : Bool
  prdMd : Option String

/-- load_goal (state.py lines 165-186).  The float conversion of the
total_cost_usd field is the only step of the function that can raise
(Python float of a malformed string raises ValueError); this is modelled
by returning Except.error carrying the ValueError message. -/
def load_goal (d : GoalDir) : Except String GoalState :=
  let state_data := parse_state_md d.stateMd
  let counts := count_tasks d.implementationMd
  let costStr := dictGet state_data "total_cost_usd" "0"
  match pyFloatOfString? costStr with
  | none => .error ("could not convert string to float: \x27" ++ costStr ++ "\x27")
  | some cost =>
    .ok { name := d.name,
          status := dictGet state_data "status" "created",
          priority := dictGet state_data "priority" "normal",
          last_activity := dictGet state_data "last_activity" "",
          completed_tasks := counts.2.1,
          total_tasks := counts.1,
          blocked_tasks := counts.2.2.1,
          review_tasks := counts.2.2.2,
          total_cost_usd := cost,
          has_replan := d.hasReplanFile,
          has_feedback := d.hasFeedbackFile,
          prd_summary := get_prd_summary d.prdMd,
          repo_name := dictGet state_data "repo" "" }

/-! ## state.py: task identifiers and dependencies (lines 270-322) -/

/-- Scanner for the regex word-boundary T digits search of _parse_task_id:
leftmost position where T follows a non-word character (or the start) and
is followed by at least one digit; the digit run is maximal.  The prev
argument carries the previously scanned character for the boundary
test. -/
def taskIdScan : Option Char → List Char → Option String
  | _, [] => none
  | prev, c :: cs =>
    if c == 'T'
        && (match prev with
            | none => true
            | some p => !(pyIsWordChar p)) then
      let ds := cs.takeWhile Char.isDigit
      if ds.isEmpty then taskIdScan (some c) cs
      else some ("T" ++ (⟨ds⟩ : String))
    else taskIdScan (some c) cs

/-- _parse_task_id (state.py lines 270-273). -/
def _parse_task_id (line : String) : Option String := taskIdScan none line.data

/-- Fuelled scanner for the regex findall of all T digit-run substrings
(no word boundary): scan left to right, at each T followed by a digit
take the maximal digit run and continue after it, otherwise advance one
character.  The fuel is the length of the input, which bounds the number
of steps since every step consumes at least one character. -/
def findTDepsAux : Nat → List Char → List String
  | 0, _ => []
  | _ + 1, [] => []
  | fuel + 1, c :: cs =>
    if c == 'T' then
      let ds := cs.takeWhile Char.isDigit
      if ds.isEmpty then findTDepsAux fuel cs
      else ("T" ++ (⟨ds⟩ : String)) :: findTDepsAux fuel (cs.drop ds.length)
    else findTDepsAux fuel cs

/-- All task identifiers occurring in a Depends line (re.findall of
T digits in _are_depends_satisfied, state.py line 278). -/
def findTDeps (cs : List Char) : List String := findTDepsAux cs.length cs

/-- One line of the document satisfies the anchored done-task pattern for
a dependency identifier: the line starts with the literal done prefix
followed by the identifier, and the identifier is followed by a word
boundary (end of line or a non-word character).  This is the per-line
reading of the MULTILINE re.search in _are_depends_satisfied (state.py
lines 282-283). -/
def isDoneLineFor (dep_id line : String) : Bool :=
  pyStartsWith line ("- [x] " ++ dep_id)
    && (match line.data.drop ("- [x] " ++ dep_id).data.length with
        | [] => true
        | c :: _ => !(pyIsWordChar c))

/-- _are_depends_satisfied (state.py lines 276-285): every identifier
extracted from the Depends line must appear as a done task somewhere in
the content; an empty extraction yields true. -/
def _are_depends_satisfied (depends_line content : String) : Bool :=
  (findTDeps depends_line.data).all
    (fun dep_id => (pySplitlines content).any (fun line => isDoneLineFor dep_id line))

/-- Matcher for the review task line regex of load_review_tasks (state.py
line 300): the line starts with the literal review prefix, then optional
whitespace, then a shortest non-empty capture up to a closing bracket;
the capture is stripped.  With the regex backtracking order (greedy
whitespace first, then shortest capture), the capture runs from the end
of the maximal whitespace run to the first closing bracket after it; if
the only closing bracket sits immediately after the whitespace run, one
whitespace character is given back and the stripped capture is empty. -/
def reviewTitle? (line : String) : Option String :=
  if pyStartsWith line "- [REVIEW:" then
    let rest := line.data.drop 10
    let wl := (rest.takeWhile isPySpace).length
    match (rest.drop (wl + 1)).findIdx? (fun c => c == ']') with
    | some k => some (pyStrip ⟨(rest.drop wl).take (k + 1)⟩)
    | none => if 1 ≤ wl && (rest.getD wl ' ') == ']' then some "" else none
  else none

/-- Matcher for the Depends sub-line regex of load_review_tasks (state.py
line 311): leading whitespace, a dash, whitespace, the literal Depends
key with colon, then the captured remainder after optional whitespace. -/
def dependsMatch? (sub : String) : Option String :=
  let cs := sub.data
  let w₁ := cs.takeWhile isPySpace
  if w₁.isEmpty then none
  else match cs.drop w₁.length with
    | '-' :: rest =>
      let w₂ := rest.takeWhile isPySpace
      if w₂.isEmpty then none
      else
        let after := rest.drop w₂.length
        if "Depends:".data.isPrefixOf after then
          some ⟨(after.drop 8).dropWhile isPySpace⟩
        else none
    | _ => none

/-- Look-ahead loop of load_review_tasks (state.py lines 307-314): scan at
most fuel lines (the source uses 9), stop at a line starting a new task,
return the capture of the first Depends sub-line found. -/
def findDependsLine : Nat → List String → Option String
  | 0, _ => none
  | _ + 1, [] => none
  | fuel + 1, sub :: rest =>
    if pyStartsWith sub "- [" then none
    else match dependsMatch? sub with
      | some dl => some dl
      | none => findDependsLine fuel rest

/-- load_review_tasks (state.py lines 288-322), with the file content
passed in as Option String.  For each line matching the review pattern,
the nine following lines are scanned for a Depends sub-line (stopping at
the next task line); the task is emitted iff the first such sub-line, if
any, has all its dependencies satisfied. -/
def load_review_tasks (goal_name : String) (impl : Option String) : List AttentionItem :=
  match impl with
  | none => []
  | some content =>
    let lines := pySplitlines content
    (List.range lines.length).foldl (fun items i =>
      match reviewTitle? (lines.getD i "") with
      | none => items
      | some title =>
        let ok := match findDependsLine 9 (lines.drop (i + 1)) with
          | none => true
          | some dl => _are_depends_satisfied dl content
        if ok then
          items ++ [{ goal_name := goal_name, item_type := "review", title := title,
                      task_id := _parse_task_id (lines.getD i ""), question_id := none }]
        else items) []

/-! ## sandbox.py: repo config parsing (src/keywork/tui/sandbox.py lines 155-234) -/

/-- Result dict of _read_repo_config.  A missing or sandbox-less config
yields all-empty fields, which is also what build_sandbox_command reads
out of the empty dict returned for a missing file. -/
structure RepoConfig where
  env_vars : List (String × String)
  volumes : List String
  ports : List Nat
deriving DecidableEq, Repr

/-- Line test for the top-level-key search (regex of a non-whitespace
character anchored at line start, sandbox.py line 190). -/
def isTopLevelLine (l : String) : Bool :=
  match l.data with
  | [] => false
  | c :: _ => !(isPySpace c)

/-- Line test for the sandbox section opener (anchored literal followed
by optional whitespace to end of line, sandbox.py line 184). -/
def isSandboxHeader (l : String) : Bool :=
  pyStartsWith l "sandbox:" && (l.data.drop 8).all isPySpace

/-- Line test for an indented section header such as env_vars, volumes or
ports (leading whitespace, the key name with colon, optional trailing
whitespace; sandbox.py lines 195, 209, 222).  Inside the sandbox section
every line is empty or starts with whitespace, so the per-line reading of
the MULTILINE search is exact. -/
def isSectionHeader (name : String) (l : String) : Bool :=
  match l.data with
  | [] => false
  | c :: _ => isPySpace c && pyStrip l == name ++ ":"

/-- Key-value matcher of the env_vars regex (sandbox.py line 204):
leading whitespace, a word-character key, a colon, then a non-empty
remainder whose stripped form is the value (when the remainder is all
whitespace the regex still matches, with an empty stripped value). -/
def envKv? (line : String) : Option (String × String) :=
  let cs := line.data
  let w₁ := cs.takeWhile isPySpace
  if w₁.isEmpty then none
  else
    let after := cs.drop w₁.length
    let key := after.takeWhile pyIsWordChar
    if key.isEmpty then none
    else match after.drop key.length with
      | ':' :: rest => if rest.isEmpty then none else some (⟨key⟩, pyStrip ⟨rest⟩)
      | _ => none

/-- Env-vars section loop (sandbox.py lines 198-206): blank lines are
skipped, a non-blank line not indented six spaces ends the section, and
matching lines are inserted dict-style. -/
def parseEnvLines : List String → List (String × String) → List (String × String)
  | [], acc => acc
  | line :: rest, acc =>
    if pyStrip line == "" then parseEnvLines rest acc
    else if !(pyStartsWith line "      ") then acc
    else match envKv? line with
      | some kv => parseEnvLines rest (dictInsert acc kv.1 kv.2)
      | none => parseEnvLines rest acc

/-- List-item matcher of the volumes regex (sandbox.py line 217): leading
whitespace, a dash, at least one whitespace character, then a non-empty
remainder whose stripped form is the item (all-whitespace remainder of
length at least two still matches with an empty stripped item, by regex
backtracking). -/
def volItem? (line : String) : Option String :=
  let cs := line.data
  let w₁ := cs.takeWhile isPySpace
  if w₁.isEmpty then none
  else match cs.drop w₁.length with
    | '-' :: rest =>
      match rest with
      | c :: _ :: _ => if isPySpace c then some (pyStrip ⟨rest.dropWhile isPySpace⟩) else none
      | _ => none
    | _ => none

/-- Volumes section loop (sandbox.py lines 211-219). -/
def parseVolLines : List String → List String
  | [] => []
  | line :: rest =>
    if pyStrip line == "" then parseVolLines rest
    else if !(pyStartsWith line "      ") then []
    else match volItem? line with
      | some v => v :: parseVolLines rest
      | none => parseVolLines rest

/-- List-item matcher of the ports regex (sandbox.py line 230): leading
whitespace, a dash, whitespace, then a maximal digit run converted to a
number (trailing junk after the digits is ignored by the regex). -/
def portItem? (line : String) : Option Nat :=
  let cs := line.data
  let w₁ := cs.takeWhile isPySpace
  if w₁.isEmpty then none
  else match cs.drop w₁.length with
    | '-' :: rest =>
      let w₂ := rest.takeWhile isPySpace
      if w₂.isEmpty then none
      else
        let ds := (rest.drop w₂.length).takeWhile Char.isDigit
        if ds.isEmpty then none else some (digitsVal ds)
    | _ => none

/-- Ports section loop (sandbox.py lines 224-232). -/
def parsePortLines : List String → List Nat
  | [] => []
  | line :: rest =>
    if pyStrip line == "" then parsePortLines rest
    else if !(pyStartsWith line "      ") then []
    else match portItem? line with
      | some p => p :: parsePortLines rest
      | none => parsePortLines rest

/-- _read_repo_config (sandbox.py lines 155-234) on the content of the
config file (none = missing file, or unreadable, both of which yield the
empty dict).  The sandbox section runs from the line after the first
sandbox header to the first following line that starts with a
non-whitespace character; each of the three sub-sections is looked up
independently inside it.  The whitespace-greedy MULTILINE regexes of the
source can shift a match end across blank lines, which is invisible at
line granularity, so the line-list reading used here is exact. -/
def _read_repo_config (file : Option String) : RepoConfig :=
  match file with
  | none => { env_vars := [], volumes := [], ports := [] }
  | some content =>
    let lines := pySplitlines content
    match lines.findIdx? isSandboxHeader with
    | none => { env_vars := [], volumes := [], ports := [] }
    | some s =>
      let sandboxLines := (lines.drop (s + 1)).takeWhile (fun l => !(isTopLevelLine l))
      { env_vars :=
          (match sandboxLines.findIdx? (isSectionHeader "env_vars") with
           | none => []
           | some e => parseEnvLines (sandboxLines.drop (e + 1)) []),
        volumes :=
          (match sandboxLines.findIdx? (isSectionHeader "volumes") with
           | none => []
           | some v => parseVolLines (sandboxLines.drop (v + 1))),
        ports :=
          (match sandboxLines.findIdx? (isSectionHeader "ports") with
           | none => []
           | some p => parsePortLines (sandboxLines.drop (p + 1))) }

/-! ## sandbox.py: build_sandbox_command (lines 353-457) -/

/-- Host state read by build_sandbox_command: current directory, home
directory, platform, environment variables (none or empty string both
count as unset where the source tests truthiness), existence of the
static env file, and the per-repo config file contents keyed by repo
name. -/
structure SandboxWorld where
  cwd : String
  home : String
  isDarwin : Bool
  sshAuthSock : Option String
  gitAuthorName : Option String
  gitAuthorEmail : Option String
  envFileExists : Bool
  repoConfigFile : String → Option String

/-- Arguments of the opening docker run line plus the mount flags
(sandbox.py lines 378-402): container name, optional TTY flags, the
workspace mount (repo-scoped when a repo name is given), the optional
goal state mount, the read-only agents and credentials mounts, and the
named cache volume. -/
def sandboxSegBase (w : SandboxWorld) (container_name repo_name goal_name : String)
    (interactive : Bool) : List String :=
  ["docker", "run", "--rm", "--name", container_name]
  ++ (if interactive then ["-it"] else [])
  ++ ["-v", (if repo_name == "" then w.cwd ++ "/workspace"
             else w.cwd ++ "/workspace/" ++ repo_name) ++ ":/workspace"]
  ++ (if goal_name == "" then []
      else ["-v", w.cwd ++ "/agents/goals/" ++ goal_name ++ ":/state"])
  ++ ["-v", w.cwd ++ "/agents" ++ ":/agents:ro"]
  ++ ["-v", w.home ++ "/.claude" ++ ":/home/agent/.claude-host:ro"]
  ++ ["-v", "keywork-cache:/home/agent/.cache/uv"]

/-- SSH agent forwarding (sandbox.py lines 405-411), emitted only when
the socket variable is set and non-empty. -/
def sandboxSegSsh (w : SandboxWorld) : List String :=
  match w.sshAuthSock with
  | none => []
  | some sock =>
    if sock == "" then []
    else
      (if w.isDarwin then ["-v", "/run/host-services/ssh-auth.sock:/ssh-agent:ro"]
       else ["-v", sock ++ ":/ssh-agent:ro"])
      ++ ["-e", "SSH_AUTH_SOCK=/ssh-agent"]

/-- Core environment variables (sandbox.py lines 413-418): the sandbox
marker, then the repo and goal names when given. -/
def sandboxSegCore (repo_name goal_name : String) : List String :=
  ["-e", "KEYWORK_SANDBOX=1"]
  ++ (if repo_name == "" then [] else ["-e", "REPO_NAME=" ++ repo_name])
  ++ (if goal_name == "" then [] else ["-e", "GOAL_NAME=" ++ goal_name])

/-- Git identity passthrough (sandbox.py lines 420-424): author name then
author email, each only when set and non-empty on the host. -/
def sandboxSegIdentity (w : SandboxWorld) : List String :=
  (match w.gitAuthorName with
   | none => []
   | some v => if v == "" then [] else ["-e", "GIT_AUTHOR_NAME=" ++ v])
  ++ (match w.gitAuthorEmail with
      | none => []
      | some v => if v == "" then [] else ["-e", "GIT_AUTHOR_EMAIL=" ++ v])

/-- Static env-file argument (sandbox.py lines 426-429), present when the
file exists at its fixed relative location. -/
def sandboxSegEnvFile (w : SandboxWorld) : List String :=
  if w.envFileExists then ["--env-file", "agents/sandbox/.env"] else []

/-- Caller-supplied extra port mappings (sandbox.py lines 431-434). -/
def sandboxSegPorts (extra_ports : List Nat) : List String :=
  extra_ports.flatMap (fun p => ["-p", toString p ++ ":" ++ toString p])

/-- Caller-supplied environment overrides (sandbox.py lines 436-439),
iterated in dict insertion order. -/
def sandboxSegOverrides (env_overrides : List (String × String)) : List String :=
  env_overrides.flatMap (fun kv => ["-e", kv.1 ++ "=" ++ kv.2])

/-- Repo-specific sandbox config (sandbox.py lines 441-449): env vars,
volumes and ports from the repo config file, only when a repo name is
given. -/
def sandboxSegRepoCfg (w : SandboxWorld) (repo_name : String) : List String :=
  if repo_name == "" then []
  else
    let repo_config := _read_repo_config (w.repoConfigFile repo_name)
    repo_config.env_vars.flatMap (fun kv => ["-e", kv.1 ++ "=" ++ kv.2])
    ++ repo_config.volumes.flatMap (fun volume => ["-v", volume])
    ++ repo_config.ports.flatMap (fun p => ["-p", toString p ++ ":" ++ toString p])

/-- Image identifier and script invocation (sandbox.py lines 451-455). -/
def sandboxSegTail (script : String) (args : List String) : List String :=
  ["keywork-sandbox"] ++ ["bash", script] ++ args

/-- build_sandbox_command (sandbox.py lines 353-457).  The source builds
the list by successive extend calls; the concatenation below lists those
extends in source order.  The random container-name suffix (eight hex
characters of a uuid) is passed in as uuidHex8. -/
def build_sandbox_command (w : SandboxWorld) (uuidHex8 : String)
    (script : String) (args : List String) (repo_name goal_name : String)
    (interactive : Bool) (extra_ports : List Nat)
    (env_overrides : List (String × String)) : List String × String :=
  let container_name := "keywork-agent-" ++ uuidHex8
  (sandboxSegBase w container_name repo_name goal_name interactive
   ++ sandboxSegSsh w
   ++ sandboxSegCore repo_name goal_name
   ++ sandboxSegIdentity w
   ++ sandboxSegEnvFile w
   ++ sandboxSegPorts extra_ports
   ++ sandboxSegOverrides env_overrides
   ++ sandboxSegRepoCfg w repo_name
   ++ sandboxSegTail script args,
   container_name)

/-! ## sandbox.py: credential checks (lines 32-152) -/

/-- Decoded JSON values as produced by json.loads, with integral numbers
(the credential expiry is a millisecond timestamp).  Objects are
association lists in key order with duplicate keys already resolved
last-wins, as json.loads resolves them. -/
inductive JVal where
  | null
  | bool (b : Bool)
  | num (n : Int)
  | str (s : String)
  | arr (elems : List JVal)
  | obj (fields : List (String × JVal))

/-- Lookup in a decoded JSON object (Python dict.get). -/
def jsonGet : List (String × JVal) → String → Option JVal
  | [], _ => none
  | (k, v) :: rest, key => if k == key then some v else jsonGet rest key

/-- Python int(x) applied to a decoded JSON value: numbers pass through,
booleans become zero or one, strings are parsed in base ten; null,
arrays and objects raise TypeError, malformed strings ValueError, both
modelled as none (the source catches both and treats the token as
valid). -/
def jvalToInt? : JVal → Option Int
  | .num n => some n
  | .bool b => some (if b then 1 else 0)
  | .str s => pyIntOfString? s
  | _ => none

/-- Re-authentication message returned for an expired token (sandbox.py
lines 94-97). -/
def expiredTokenMsg : String :=
  "Claude OAuth token has expired.\nRun \x27claude\x27 in your terminal to re-authenticate, then retry."

/-- _check_token_expiry (sandbox.py lines 68-104).  The first argument is
the decode of the credentials file: none models an unreadable or
undecodable file, some fields a successfully decoded top-level object
(the claims and callers only exercise object-shaped credential files).
The current wall clock in milliseconds is passed in as now_ms. -/
def _check_token_expiry (decoded : Option (List (String × JVal))) (now_ms : Int) :
    Bool × String :=
  match decoded with
  | none => (false, "Failed to read credentials file")
  | some data =>
    let oauth_data := (jsonGet data "claudeAiOauth").getD (.obj [])
    let expires_at? : Option JVal :=
      match oauth_data with
      | .obj ofs => jsonGet ofs "expiresAt"
      | _ => none
    match expires_at? with
    | none => (true, "")
    | some j =>
      match jvalToInt? j with
      | none => (true, "")
      | some expires_at =>
        if expires_at ≤ now_ms then (false, expiredTokenMsg)
        else if expires_at - now_ms ≤ 30 * 60 * 1000 then
          (true, "WARNING: Claude OAuth token expires in ~"
                 ++ toString ((expires_at - now_ms) / 60000) ++ " minutes.")
        else (true, "")

/-- Outcome of a subprocess.run call: it completed with some return code,
the binary was absent (FileNotFoundError), or it exceeded its timeout
(TimeoutExpired). -/
inductive SubprocOutcome where
  | completed (returncode : Int)
  | fileNotFound
  | timedOut
deriving DecidableEq, Repr

/-- Host state read by validate_credentials and its helpers: the docker
info query outcome, the platform, existence of the credentials file
before any export, the keychain query outcome and its stripped stdout,
the decode of the credentials file contents, the clock, and the SSH
agent socket variable. -/
structure CredWorld where
  dockerInfo : SubprocOutcome
  isDarwin : Bool
  credsFileExistsBefore : Bool
  securityCmd : SubprocOutcome
  securityStdoutTrim : String
  credsDecoded : Option (List (String × JVal))
  nowMs : Int
  sshAuthSock : Option String

/-- _export_macos_keychain_credentials (sandbox.py lines 36-65): succeed
immediately when the file already exists, otherwise query the keychain;
a zero exit with non-empty stdout writes the file and succeeds, anything
else fails with the message of the corresponding branch. -/
def _export_macos_keychain_credentials (w : CredWorld) : Bool × String :=
  if w.credsFileExistsBefore then (true, "")
  else match w.securityCmd with
    | .completed rc =>
      if rc != 0 || w.securityStdoutTrim == "" then
        (false, "Claude credentials not found in macOS Keychain or on disk.\nRun \x27claude\x27 on the host first to authenticate.")
      else (true, "")
    | .fileNotFound => (false, "macOS \x27security\x27 command not found.")
    | .timedOut => (false, "Timed out reading Claude credentials from Keychain.")

/-- Message for the docker-binary-missing branch (sandbox.py lines
120-124). -/
def dockerMissingMsg : String :=
  "Docker is required to run the agent sandbox.\nInstall Docker Desktop: https://www.docker.com/products/docker-desktop/"

/-- Message for the docker-daemon-timeout branch (sandbox.py line 126). -/
def dockerTimeoutMsg : String :=
  "Docker daemon is not responding. Is Docker Desktop running?"

/-- Non-fatal warning appended when the SSH agent socket variable is
unset (sandbox.py lines 146-149). -/
def addSshWarning (msg : String) : String :=
  let warning := "WARNING: SSH_AUTH_SOCK not set. Git operations requiring SSH keys will fail."
  if msg == "" then warning else pyStrip (msg ++ "\n" ++ warning)

/-- validate_credentials (sandbox.py lines 107-152).  The docker info
query is fatal only on a missing binary or a timeout; its return code is
ignored.  On macOS a failed keychain export is fatal; after a successful
export the credentials file exists (it was just written or already
present), so the missing-file branch can only trigger off macOS. -/
def validate_credentials (w : CredWorld) : Bool × String :=
  match w.dockerInfo with
  | .fileNotFound => (false, dockerMissingMsg)
  | .timedOut => (false, dockerTimeoutMsg)
  | .completed _ =>
    let exported := _export_macos_keychain_credentials w
    if w.isDarwin && !exported.1 then (false, exported.2)
    else
      let creds_exists := if w.isDarwin then true else w.credsFileExistsBefore
      if !creds_exists then
        (false, "Claude credentials not found.\nRun \x27claude\x27 on the host first to authenticate.")
      else
        let vm := _check_token_expiry w.credsDecoded w.nowMs
        if !vm.1 then (false, vm.2)
        else
          let msg := match w.sshAuthSock with
            | some s => if s == "" then addSshWarning vm.2 else vm.2
            | none => addSshWarning vm.2
          (true, msg)

/-! ## terminal.py (src/keywork/tui/terminal.py) -/

/-- TerminalResult dataclass (terminal.py lines 25-32). -/
structure TerminalResult where
  success : Bool
  method : String
  pid : Option Nat := none
  fallback_command : Option String := none
deriving DecidableEq, Repr

/-- Host state read by open_terminal_session and its launchers: platform,
whether the process list query reports iTerm running, the outcome of
each launcher (for the AppleScript and tmux launchers a success boolean,
for the Popen launchers the pid when spawning succeeded), which binaries
are on the PATH, the multiplexer environment variable, and the current
directory used when no working directory is passed. -/
structure TermWorld where
  isMacos : Bool
  itermProcessRunning : Bool
  itermLaunchOk : Bool
  macTermLaunchOk : Bool
  gnomeOnPath : Bool
  gnomeLaunchPid : Option Nat
  xtermOnPath : Bool
  xtermLaunchPid : Option Nat
  tmuxEnv : Option String
  tmuxLaunchOk : Bool
  cwd : String

/-- Python truthiness of an optional environment variable string: unset
and empty are both falsy. -/
def pyTruthyStr : Option String → Bool
  | none => false
  | some s => s != ""

/-- _is_iterm2_available (terminal.py lines 55-68): on macOS only, a
process-list query must succeed and report iTerm; both are folded into
the itermProcessRunning field. -/
def _is_iterm2_available (w : TermWorld) : Bool :=
  w.isMacos && w.itermProcessRunning

/-- _launch_iterm2 (terminal.py lines 71-100): success is the success of
the AppleScript subprocess; failures (non-zero exit, missing osascript,
timeout) are caught and reported as an unsuccessful result. -/
def _launch_iterm2 (w : TermWorld) (_command _title _working_dir : String) : TerminalResult :=
  if w.itermLaunchOk then { success := true, method := "iterm2" }
  else { success := false, method := "iterm2" }

/-- _launch_macos_terminal (terminal.py lines 103-128). -/
def _launch_macos_terminal (w : TermWorld) (_command _title _working_dir : String) :
    TerminalResult :=
  if w.macTermLaunchOk then { success := true, method := "macos_terminal" }
  else { success := false, method := "macos_terminal" }

/-- _launch_gnome_terminal (terminal.py lines 131-149): a successful
Popen yields success with the child pid; FileNotFoundError and OSError
are caught. -/
def _launch_gnome_terminal (w : TermWorld) (_command _title _working_dir : String) :
    TerminalResult :=
  match w.gnomeLaunchPid with
  | some pid => { success := true, method := "gnome_terminal", pid := some pid }
  | none => { success := false, method := "gnome_terminal" }

/-- _launch_x_terminal_emulator (terminal.py lines 152-168). -/
def _launch_x_terminal_emulator (w : TermWorld) (_command _title _working_dir : String) :
    TerminalResult :=
  match w.xtermLaunchPid with
  | some pid => { success := true, method := "x_terminal_emulator", pid := some pid }
  | none => { success := false, method := "x_terminal_emulator" }

/-- _launch_tmux (terminal.py lines 171-187). -/
def _launch_tmux (w : TermWorld) (_command _title _working_dir : String) : TerminalResult :=
  if w.tmuxLaunchOk then { success := true, method := "tmux" }
  else { success := false, method := "tmux" }

/-- _fallback (terminal.py lines 190-197): no terminal was found; compose
the manual command string. -/
def _fallback (command working_dir : String) : TerminalResult :=
  { success := false, method := "fallback",
    fallback_command := some ("cd " ++ working_dir ++ " && " ++ command) }

/-- open_terminal_session (terminal.py lines 200-244): try iTerm2 (only
when on macOS with iTerm running), then Terminal.app (on macOS), then
gnome-terminal and x-terminal-emulator (when on the PATH), then tmux
(when inside a tmux session), stopping at the first success; otherwise
fall back.  A launcher failure falls through to the next method. -/
def open_terminal_session (w : TermWorld) (command title : String)
    (working_dir? : Option String) : TerminalResult :=
  let working_dir := working_dir?.getD w.cwd
  let step5 :=
    if pyTruthyStr w.tmuxEnv then
      let r := _launch_tmux w command title working_dir
      if r.success then r else _fallback command working_dir
    else _fallback command working_dir
  let step4 :=
    if w.xtermOnPath then
      let r := _launch_x_terminal_emulator w command title working_dir
      if r.success then r else step5
    else step5
  let step3 :=
    if w.gnomeOnPath then
      let r := _launch_gnome_terminal w command title working_dir
      if r.success then r else step4
    else step4
  let step2 :=
    if w.isMacos then
      let r := _launch_macos_terminal w command title working_dir
      if r.success then r else step3
    else step3
  if w.isMacos && _is_iterm2_available w then
    let r := _launch_iterm2 w command title working_dir
    if r.success then r else step2
  else step2

/-! ## Specification-side predicates used by the theorems -/

/-- Fuel-free version of the Depends look-ahead scan, used to relate the
source loop to its quantified description: stop at a task line, return
the first Depends capture. -/
def scanDepends : List String → Option String
  | [] => none
  | sub :: rest =>
    if pyStartsWith sub "- [" then none
    else match dependsMatch? sub with
      | some dl => some dl
      | none => scanDepends rest

/-- Quantified statement of the actionability gate of load_review_tasks,
phrased as the claim phrases it: looking at the window of at most nine
lines after the task line, for the first Depends sub-line reached
without first hitting a new task line, all its referenced identifiers
must be satisfied; when no such sub-line exists the gate holds
vacuously. -/
def actionableSpec (lines : List String) (content : String) (i : Nat) : Prop :=
  ∀ j, j < ((lines.drop (i + 1)).take 9).length →
    (∀ k, k < j →
      pyStartsWith (((lines.drop (i + 1)).take 9).getD k "") "- [" = false ∧
      dependsMatch? (((lines.drop (i + 1)).take 9).getD k "") = none) →
    pyStartsWith (((lines.drop (i + 1)).take 9).getD j "") "- [" = false →
    ((dependsMatch? (((lines.drop (i + 1)).take 9).getD j "")).all
      (fun dl => _are_depends_satisfied dl content)) = true

instance actionableSpecDecidable (lines : List String) (content : String) (i : Nat) :
    Decidable (actionableSpec lines content i) := by
  unfold actionableSpec
  infer_instance

/-- Concrete world for the layering example of the build-command claims:
repo x has a config file declaring one sandbox env var A with value 2. -/
def overrideWorld : SandboxWorld :=
  { cwd := "/kw", home := "/home/u", isDarwin := false, sshAuthSock := none,
    gitAuthorName := none, gitAuthorEmail := none, envFileExists := false,
    repoConfigFile := fun n =>
      if n == "x" then some "sandbox:\n  env_vars:\n      A: 2\n" else none }

/-- Concrete world in which the static env file exists and nothing else
is configured. -/
def envFileWorld : SandboxWorld :=
  { cwd := "/kw", home := "/home/u", isDarwin := false, sshAuthSock := none,
    gitAuthorName := none, gitAuthorEmail := none, envFileExists := true,
    repoConfigFile := fun _ => none }

/-! ## Helper lemmas -/

lemma slash_mem_data (s t : String) : '/' ∈ (s ++ "/" ++ t).data := by
  rw [String.data_append, String.data_append]
  exact List.mem_append_left _ (List.mem_append_right _ (by decide))

lemma pyStartsWith_mono (l p q : String) (hpq : p.data <+: q.data)
    (h : pyStartsWith l q = true) : pyStartsWith l p = true := by
  rw [pyStartsWith, List.isPrefixOf_iff_prefix] at h ⊢
  exact hpq.trans h

lemma pyStartsWith_incompatible (l p q : String) (h₁ : ¬ (p.data <+: q.data))
    (h₂ : ¬ (q.data <+: p.data)) : (pyStartsWith l p && pyStartsWith l q) = false := by
  cases hp : pyStartsWith l p
  · simp
  · cases hq : pyStartsWith l q
    · simp
    · exfalso
      rw [pyStartsWith, List.isPrefixOf_iff_prefix] at hp hq
      rcases List.prefix_or_prefix_of_prefix hp hq with hc | hc
      · exact h₁ hc
      · exact h₂ hc

lemma countP_three_le {α : Type} (p q r t : α → Bool)
    (hp : ∀ a, p a = true → t a = true)
    (hq : ∀ a, q a = true → t a = true)
    (hr : ∀ a, r a = true → t a = true)
    (hpq : ∀ a, (p a && q a) = false)
    (hpr : ∀ a, (p a && r a) = false)
    (hqr : ∀ a, (q a && r a) = false) :
    ∀ l : List α, l.countP p + l.countP q + l.countP r ≤ l.countP t := by
  intro l
  induction l with
  | nil => simp
  | cons a l ih =>
    have hx : ∀ (b : Bool), (if b = true then (1 : Nat) else 0) = b.toNat := by
      intro b; cases b <;> rfl
    rw [List.countP_cons, List.countP_cons, List.countP_cons, List.countP_cons,
        hx, hx, hx, hx]
    have hstep : (p a).toNat + (q a).toNat + (r a).toNat ≤ (t a).toNat := by
      by_cases hpa : p a = true
      · have hqa : q a = false := by
          have h := hpq a; rw [hpa] at h; simpa using h
        have hra : r a = false := by
          have h := hpr a; rw [hpa] at h; simpa using h
        rw [hpa, hqa, hra, hp a hpa]; decide
      · have hpa' : p a = false := by revert hpa; cases p a <;> simp
        by_cases hqa : q a = true
        · have hra : r a = false := by
            have h := hqr a; rw [hqa] at h; simpa using h
          rw [hpa', hqa, hra, hq a hqa]; decide
        · have hqa' : q a = false := by revert hqa; cases q a <;> simp
          by_cases hra : r a = true
          · rw [hpa', hqa', hra, hr a hra]; decide
          · have hra' : r a = false := by revert hra; cases r a <;> simp
            rw [hpa', hqa', hra']
            cases hta : t a <;> decide
    omega

/-! ## C10: the progress string -/

/-- C10: for every GoalSnapshot, the progress string is the no-tasks
sentinel exactly when the total task count is zero, is the
completed-over-total fraction otherwise, and the zero-task case never
renders as a zero-over-zero fraction. -/
theorem goal_progress_spec (g : GoalState) :
    (g.total_tasks = 0 ↔ g.progress = "no tasks")
    ∧ (g.total_tasks ≠ 0 →
        g.progress = toString g.completed_tasks ++ "/" ++ toString g.total_tasks)
    ∧ (g.total_tasks = 0 → g.progress ≠ "0/0") := by
  refine ⟨⟨fun h => by simp [GoalState.progress, h], ?_⟩, fun h => by simp [GoalState.progress, h], ?_⟩
  · intro hp
    by_contra h
    have hfmt : g.progress = toString g.completed_tasks ++ "/" ++ toString g.total_tasks := by
      simp [GoalState.progress, h]
    have hmem := slash_mem_data (toString g.completed_tasks) (toString g.total_tasks)
    rw [← hfmt, hp] at hmem
    exact absurd hmem (by decide)
  · intro h hq
    have hfmt : g.progress = "no tasks" := by simp [GoalState.progress, h]
    rw [hfmt] at hq
    exact absurd hq (by decide)

/-- Witness for goal_progress_spec at two concrete snapshots, one with no
tasks and one with one of three tasks completed. -/
theorem goal_progress_spec_witness :
    GoalState.progress ⟨"g", "created", "normal", "", 0, 0, 0, 0, .num 0 0, false, false, "", ""⟩
      = "no tasks"
    ∧ GoalState.progress ⟨"g", "building", "high", "", 1, 3, 0, 0, .num 0 0, false, false, "", ""⟩
      = toString 1 ++ "/" ++ toString 3 :=
  ⟨(goal_progress_spec ⟨"g", "created", "normal", "", 0, 0, 0, 0, .num 0 0, false, false, "", ""⟩).1.mp rfl,
   (goal_progress_spec ⟨"g", "building", "high", "", 1, 3, 0, 0, .num 0 0, false, false, "", ""⟩).2.1 (by decide)⟩

/-! ## C5: dependenciesSatisfied -/

/-- C5: dependenciesSatisfied is vacuously true when the Depends line
yields no task identifier, and in general holds exactly when every
extracted identifier appears in the document on a line-start-anchored
done-task line with a word boundary after the identifier. -/
theorem are_depends_satisfied_iff_all_done (dl content : String) :
    (findTDeps dl.data = [] → _are_depends_satisfied dl content = true)
    ∧ (_are_depends_satisfied dl content = true ↔
        ∀ tid ∈ findTDeps dl.data,
          ∃ line ∈ pySplitlines content, isDoneLineFor tid line = true) := by
  constructor
  · intro h
    simp [_are_depends_satisfied, h]
  · simp [_are_depends_satisfied, List.all_eq_true, List.any_eq_true]

/-- Witness for are_depends_satisfied_iff_all_done: a Depends line with
no identifier is vacuously satisfied against an empty document. -/
theorem are_depends_satisfied_iff_all_done_witness :
    _are_depends_satisfied "  none  " "" = true :=
  (are_depends_satisfied_iff_all_done "  none  " "").1 rfl

/-! ## C6: task counting -/

/-- C6: the four counts partition the task lines: done, blocked and
review lines are mutually exclusive sub-counts of the task-line total,
so together with the remaining pending lines they sum to the total; and
counting the same text twice is deterministic. -/
theorem count_tasks_partition_and_idempotent (file : Option String) :
    ((count_tasks file).2.1 + (count_tasks file).2.2.1 + (count_tasks file).2.2.2)
      + ((count_tasks file).1
          - ((count_tasks file).2.1 + (count_tasks file).2.2.1 + (count_tasks file).2.2.2))
      = (count_tasks file).1
    ∧ count_tasks file = count_tasks file
    ∧ (∀ l : String,
        (pyStartsWith l "- [x]" && pyStartsWith l "- [BLOCKED") = false
        ∧ (pyStartsWith l "- [x]" && pyStartsWith l "- [REVIEW") = false
        ∧ (pyStartsWith l "- [BLOCKED" && pyStartsWith l "- [REVIEW") = false) := by
  refine ⟨?_, rfl, fun l =>
    ⟨pyStartsWith_incompatible l _ _ (by decide) (by decide),
     pyStartsWith_incompatible l _ _ (by decide) (by decide),
     pyStartsWith_incompatible l _ _ (by decide) (by decide)⟩⟩
  match file with
  | none => simp [count_tasks]
  | some content =>
    have hle := countP_three_le
      (fun l => pyStartsWith l "- [x]")
      (fun l => pyStartsWith l "- [BLOCKED")
      (fun l => pyStartsWith l "- [REVIEW")
      (fun l => pyStartsWith l "- [")
      (fun a => pyStartsWith_mono a "- [" "- [x]" (by decide))
      (fun a => pyStartsWith_mono a "- [" "- [BLOCKED" (by decide))
      (fun a => pyStartsWith_mono a "- [" "- [REVIEW" (by decide))
      (fun a => pyStartsWith_incompatible a _ _ (by decide) (by decide))
      (fun a => pyStartsWith_incompatible a _ _ (by decide) (by decide))
      (fun a => pyStartsWith_incompatible a _ _ (by decide) (by decide))
      (pySplitlines content)
    simp only [count_tasks]
    omega

/-! ## C3: load_goal error behaviour -/

/-- Counterexample to the never-raises claim: a state file whose
total_cost_usd value is not a number makes load_goal raise (the float
conversion is not guarded), rather than degrade to the default cost. -/
theorem load_goal_malformed_cost_error :
    load_goal ⟨"g", some "total_cost_usd: abc", none, false, false, none⟩ =
      Except.error "could not convert string to float: \x27abc\x27" := by
  rfl

/-- C3 amended: load_goal raises exactly when the total_cost_usd value of
the state file (defaulting to the string zero when absent, which always
parses) is not a valid Python float literal; in particular, with every
backing file missing it succeeds and yields the all-default snapshot. -/
theorem load_goal_ok_iff_cost_parses (d : GoalDir) :
    ((load_goal d).isOk = true ↔
      (pyFloatOfString? (dictGet (parse_state_md d.stateMd) "total_cost_usd" "0")).isSome = true)
    ∧ (∀ (n : String) (hr hf : Bool),
        load_goal ⟨n, none, none, hr, hf, none⟩ =
          Except.ok { name := n, has_replan := hr, has_feedback := hf }) := by
  constructor
  · simp only [load_goal]
    cases h : pyFloatOfString? (dictGet (parse_state_md d.stateMd) "total_cost_usd" "0") with
    | none => simp [h, Except.isOk, Except.toBool]
    | some c => simp [h, Except.isOk, Except.toBool]
  · intro n hr hf
    rfl

/-! ## C7: token expiry check -/

/-- C7: on a credentials file that decodes as an object, an absent nested
expiry field (including an absent or non-object OAuth section looked at
here through its two shapes) yields valid with no message; an expiry in
the past yields not-valid with the re-authentication message; an expiry
in the future but within the thirty-minute margin yields valid with the
warning carrying the remaining minutes. -/
theorem check_token_expiry_cases (fs ofs : List (String × JVal)) (now e : Int) :
    (jsonGet fs "claudeAiOauth" = none → _check_token_expiry (some fs) now = (true, ""))
    ∧ (jsonGet fs "claudeAiOauth" = some (.obj ofs) → jsonGet ofs "expiresAt" = none →
        _check_token_expiry (some fs) now = (true, ""))
    ∧ (jsonGet fs "claudeAiOauth" = some (.obj ofs) →
        jsonGet ofs "expiresAt" = some (.num e) → e < now →
        _check_token_expiry (some fs) now = (false, expiredTokenMsg))
    ∧ (jsonGet fs "claudeAiOauth" = some (.obj ofs) →
        jsonGet ofs "expiresAt" = some (.num e) → now < e → e - now ≤ 30 * 60 * 1000 →
        _check_token_expiry (some fs) now =
          (true, "WARNING: Claude OAuth token expires in ~" ++ toString ((e - now) / 60000)
                 ++ " minutes.")) := by
  refine ⟨?_, ?_, ?_, ?_⟩
  · intro h1
    simp [_check_token_expiry, h1, jsonGet]
  · intro h1 h2
    simp [_check_token_expiry, h1, h2]
  · intro h1 h2 h3
    simp only [_check_token_expiry, h1, Option.getD_some, h2, jvalToInt?]
    rw [if_pos (le_of_lt h3)]
  · intro h1 h2 h3 h4
    simp only [_check_token_expiry, h1, Option.getD_some, h2, jvalToInt?]
    rw [if_neg (not_le.mpr h3), if_pos h4]

/-- Witness for check_token_expiry_cases at three concrete credential
objects: no expiry field, an expired token, and a token sixteen minutes
from expiry. -/
theorem check_token_expiry_cases_witness :
    _check_token_expiry (some [("claudeAiOauth", JVal.obj [])]) 0 = (true, "")
    ∧ _check_token_expiry (some [("claudeAiOauth", JVal.obj [("expiresAt", JVal.num 100)])]) 200 =
        (false, expiredTokenMsg)
    ∧ _check_token_expiry (some [("claudeAiOauth", JVal.obj [("expiresAt", JVal.num 1000000)])]) 0 =
        (true, "WARNING: Claude OAuth token expires in ~"
               ++ toString ((1000000 - 0 : Int) / 60000) ++ " minutes.") :=
  ⟨(check_token_expiry_cases [("claudeAiOauth", JVal.obj [])] [] 0 0).2.1 rfl rfl,
   (check_token_expiry_cases [("claudeAiOauth", JVal.obj [("expiresAt", JVal.num 100)])]
      [("expiresAt", JVal.num 100)] 200 100).2.2.1 rfl rfl (by decide),
   (check_token_expiry_cases [("claudeAiOauth", JVal.obj [("expiresAt", JVal.num 1000000)])]
      [("expiresAt", JVal.num 1000000)] 0 1000000).2.2.2 rfl rfl (by decide) (by decide)⟩

/-! ## C8: docker availability is fatal -/

/-- C8: a missing container-runtime binary and an unresponsive daemon are
both fatal for validate_credentials, with two distinct messages. -/
theorem validate_credentials_docker_fatal (w : CredWorld) :
    (w.dockerInfo = .fileNotFound → validate_credentials w = (false, dockerMissingMsg))
    ∧ (w.dockerInfo = .timedOut → validate_credentials w = (false, dockerTimeoutMsg))
    ∧ dockerMissingMsg ≠ dockerTimeoutMsg := by
  refine ⟨?_, ?_, by decide⟩
  · intro h
    simp [validate_credentials, h]
  · intro h
    simp [validate_credentials, h]

/-- Witness for validate_credentials_docker_fatal at two concrete
worlds. -/
theorem validate_credentials_docker_fatal_witness :
    validate_credentials ⟨.fileNotFound, false, false, .completed 0, "", none, 0, none⟩ =
      (false, dockerMissingMsg)
    ∧ validate_credentials ⟨.timedOut, false, false, .completed 0, "", none, 0, none⟩ =
      (false, dockerTimeoutMsg) :=
  ⟨(validate_credentials_docker_fatal ⟨.fileNotFound, false, false, .completed 0, "", none, 0, none⟩).1 rfl,
   (validate_credentials_docker_fatal ⟨.timedOut, false, false, .completed 0, "", none, 0, none⟩).2.1 rfl⟩

/-! ## C9: terminal fallback -/

/-- C9: with no terminal method available (not on macOS, neither Linux
terminal binary on the PATH, multiplexer variable unset or empty),
open_terminal_session returns an unsuccessful fallback result whose
command is exactly the composed change-directory-and-run string, which
is never empty. -/
theorem open_terminal_session_fallback (w : TermWorld) (command title wd : String)
    (hmac : w.isMacos = false) (hg : w.gnomeOnPath = false) (hx : w.xtermOnPath = false)
    (ht : pyTruthyStr w.tmuxEnv = false) :
    open_terminal_session w command title (some wd) =
      { success := false, method := "fallback", pid := none,
        fallback_command := some ("cd " ++ wd ++ " && " ++ command) }
    ∧ ("cd " ++ wd ++ " && " ++ command) ≠ "" := by
  constructor
  · simp [open_terminal_session, hmac, hg, hx, ht, _is_iterm2_available, _fallback]
  · intro h
    have hlen := congrArg String.length h
    rw [String.length_append, String.length_append, String.length_append] at hlen
    have h3 : "cd ".length = 3 := rfl
    have h0 : "".length = 0 := rfl
    omega

/-- Witness for open_terminal_session_fallback at a concrete world and
command. -/
theorem open_terminal_session_fallback_witness :
    open_terminal_session
      ⟨false, false, false, false, false, none, false, none, none, false, "/w"⟩
      "echo hi" "t" (some "/dir") =
      { success := false, method := "fallback", pid := none,
        fallback_command := some ("cd " ++ "/dir" ++ " && " ++ "echo hi") }
    ∧ ("cd " ++ "/dir" ++ " && " ++ "echo hi") ≠ "" :=
  open_terminal_session_fallback
    ⟨false, false, false, false, false, none, false, none, none, false, "/w"⟩
    "echo hi" "t" "/dir" rfl rfl rfl rfl

/-! ## C1: caller overrides precede repo config -/

/-- C1: in every built sandbox command the caller-supplied environment
override arguments form a contiguous block immediately followed by the
repo-config environment arguments, so every override argument appears
before every repo-config environment argument; and at the concrete
instance of the claim (repo x, goal y, override A=1, repo config A=2)
the override pair appears before the repo-config pair. -/
theorem build_sandbox_command_overrides_before_repo_config
    (w : SandboxWorld) (uuidHex8 script : String) (args : List String)
    (repo_name goal_name : String) (interactive : Bool) (extra_ports : List Nat)
    (env_overrides : List (String × String)) :
    (∃ pre post,
      (build_sandbox_command w uuidHex8 script args repo_name goal_name interactive
        extra_ports env_overrides).1 =
        pre ++ env_overrides.flatMap (fun kv => ["-e", kv.1 ++ "=" ++ kv.2])
            ++ (if repo_name == "" then []
                else (_read_repo_config (w.repoConfigFile repo_name)).env_vars.flatMap
                      (fun kv => ["-e", kv.1 ++ "=" ++ kv.2]))
            ++ post)
    ∧ (∃ l₁ l₂ l₃,
        (build_sandbox_command overrideWorld "u1" "run.sh" [] "x" "y" false [] [("A", "1")]).1 =
          l₁ ++ ["-e", "A=1"] ++ l₂ ++ ["-e", "A=2"] ++ l₃) := by
  constructor
  · refine ⟨sandboxSegBase w ("keywork-agent-" ++ uuidHex8) repo_name goal_name interactive
        ++ sandboxSegSsh w ++ sandboxSegCore repo_name goal_name ++ sandboxSegIdentity w
        ++ sandboxSegEnvFile w ++ sandboxSegPorts extra_ports,
      (if repo_name == "" then []
       else (_read_repo_config (w.repoConfigFile repo_name)).volumes.flatMap
              (fun volume => ["-v", volume])
            ++ (_read_repo_config (w.repoConfigFile repo_name)).ports.flatMap
                (fun p => ["-p", toString p ++ ":" ++ toString p]))
      ++ sandboxSegTail script args, ?_⟩
    simp only [build_sandbox_command, sandboxSegOverrides, sandboxSegRepoCfg]
    cases h : (repo_name == "") <;> simp [h, List.append_assoc]
  · refine ⟨["docker", "run", "--rm", "--name", "keywork-agent-u1",
             "-v", "/kw/workspace/x:/workspace", "-v", "/kw/agents/goals/y:/state",
             "-v", "/kw/agents:/agents:ro", "-v", "/home/u/.claude:/home/agent/.claude-host:ro",
             "-v", "keywork-cache:/home/agent/.cache/uv",
             "-e", "KEYWORK_SANDBOX=1", "-e", "REPO_NAME=x", "-e", "GOAL_NAME=y"],
           [], ["keywork-sandbox", "bash", "run.sh"], ?_⟩
    rfl

/-! ## C2: position of the env-file argument -/

/-- Counterexample to the claimed precedence order: in a world where the
static env file exists, the core sandbox-marker environment argument
appears in the built command before the env-file argument, not after it
as the claimed lowest-first order (env-file first, then core) would
require. -/
theorem build_sandbox_command_envfile_not_first :
    List.indexOf "KEYWORK_SANDBOX=1"
        (build_sandbox_command envFileWorld "u2" "run.sh" [] "" "" false [] []).1 <
      List.indexOf "--env-file"
        (build_sandbox_command envFileWorld "u2" "run.sh" [] "" "" false [] []).1
    ∧ "--env-file" ∈ (build_sandbox_command envFileWorld "u2" "run.sh" [] "" "" false [] []).1
    ∧ "KEYWORK_SANDBOX=1" ∈ (build_sandbox_command envFileWorld "u2" "run.sh" [] "" "" false [] []).1 := by
  decide

/-- C2 amended: the environment-affecting arguments appear in the built
command contiguously in the order core environment variables (sandbox
marker, repo and goal names), then host identity passthrough, then the
static env-file argument, then the caller port mappings and environment
overrides, then the repo-specific configuration, before the image and
script tail; everything earlier (mounts and the SSH passthrough) sits in
the prefix. -/
theorem build_sandbox_command_env_layer_order
    (w : SandboxWorld) (uuidHex8 script : String) (args : List String)
    (repo_name goal_name : String) (interactive : Bool) (extra_ports : List Nat)
    (env_overrides : List (String × String)) :
    ∃ pre,
      (build_sandbox_command w uuidHex8 script args repo_name goal_name interactive
        extra_ports env_overrides).1 =
        pre ++ sandboxSegCore repo_name goal_name ++ sandboxSegIdentity w
            ++ sandboxSegEnvFile w ++ sandboxSegPorts extra_ports
            ++ sandboxSegOverrides env_overrides ++ sandboxSegRepoCfg w repo_name
            ++ sandboxSegTail script args := by
  refine ⟨sandboxSegBase w ("keywork-agent-" ++ uuidHex8) repo_name goal_name interactive
      ++ sandboxSegSsh w, ?_⟩
  simp [build_sandbox_command, List.append_assoc]

/-! ## C4: the review-task actionability gate -/

lemma findDependsLine_eq_scanDepends (fuel : Nat) : ∀ l : List String,
    findDependsLine fuel l = scanDepends (l.take fuel) := by
  induction fuel with
  | zero => intro l; rfl
  | succ n ih =>
    intro l
    cases l with
    | nil => rfl
    | cons sub rest =>
      simp only [findDependsLine, List.take_succ_cons, scanDepends, ih rest]

lemma scanDepends_gate_iff (content : String) : ∀ l : List String,
    ((match scanDepends l with
      | none => true
      | some dl => _are_depends_satisfied dl content) = true)
    ↔ (∀ j, j < l.length →
        (∀ k, k < j →
          pyStartsWith (l.getD k "") "- [" = false ∧ dependsMatch? (l.getD k "") = none) →
        pyStartsWith (l.getD j "") "- [" = false →
        ((dependsMatch? (l.getD j "")).all
          (fun dl => _are_depends_satisfied dl content)) = true) := by
  intro l
  induction l with
  | nil => simp [scanDepends]
  | cons sub rest ih =>
    by_cases hb : pyStartsWith sub "- [" = true
    · constructor
      · intro _ j hj hk hnb
        cases j with
        | zero =>
          rw [List.getD_cons_zero] at hnb
          simp [hb] at hnb
        | succ j' =>
          have h0 := (hk 0 (Nat.succ_pos j')).1
          rw [List.getD_cons_zero] at h0
          simp [hb] at h0
      · intro _
        simp [scanDepends, hb]
    · have hb' : pyStartsWith sub "- [" = false := by
        revert hb; cases pyStartsWith sub "- [" <;> simp
      cases hd : dependsMatch? sub with
      | some dl =>
        have hscan : scanDepends (sub :: rest) = some dl := by
          simp [scanDepends, hb', hd]
        constructor
        · intro hL j hj hk hnb
          cases j with
          | zero =>
            rw [List.getD_cons_zero, hd]
            rw [hscan] at hL
            simpa using hL
          | succ j' =>
            have h0 := (hk 0 (Nat.succ_pos j')).2
            rw [List.getD_cons_zero] at h0
            rw [hd] at h0
            cases h0
        · intro hR
          have h0 := hR 0 (by simp) (fun k hk => absurd hk (Nat.not_lt_zero k))
            (by rw [List.getD_cons_zero]; exact hb')
          rw [List.getD_cons_zero, hd] at h0
          rw [hscan]
          simpa using h0
      | none =>
        have hstep : (match scanDepends (sub :: rest) with
            | none => true
            | some dl => _are_depends_satisfied dl content) =
            (match scanDepends rest with
            | none => true
            | some dl => _are_depends_satisfied dl content) := by
          have hscan : scanDepends (sub :: rest) = scanDepends rest := by
            simp [scanDepends, hb', hd]
          rw [hscan]
        rw [hstep, ih]
        constructor
        · intro hR j hj hk hnb
          cases j with
          | zero =>
            rw [List.getD_cons_zero, hd]
            rfl
          | succ j' =>
            rw [List.getD_cons_succ] at hnb ⊢
            have hj' : j' < rest.length := by
              simp only [List.length_cons] at hj
              exact Nat.lt_of_succ_lt_succ hj
            refine hR j' hj' ?_ hnb
            intro k hkj
            have hkk := hk (k + 1) (Nat.succ_lt_succ hkj)
            rw [List.getD_cons_succ] at hkk
            exact hkk
        · intro hR j hj hk hnb
          have hk' : ∀ k, k < j + 1 →
              pyStartsWith ((sub :: rest).getD k "") "- [" = false ∧
              dependsMatch? ((sub :: rest).getD k "") = none := by
            intro k hkj
            cases k with
            | zero => rw [List.getD_cons_zero]; exact ⟨hb', hd⟩
            | succ k' =>
              rw [List.getD_cons_succ]
              exact hk k' (Nat.lt_of_succ_lt_succ hkj)
          have hlt : j + 1 < (sub :: rest).length := by
            simp only [List.length_cons]
            exact Nat.succ_lt_succ hj
          have hmain := hR (j + 1) hlt hk' (by rw [List.getD_cons_succ]; exact hnb)
          rw [List.getD_cons_succ] at hmain
          exact hmain

lemma load_review_tasks_foldl_aux (g content : String) :
    ∀ (ns : List Nat) (acc : List AttentionItem),
      ns.foldl (fun items i =>
        match reviewTitle? ((pySplitlines content).getD i "") with
        | none => items
        | some title =>
          let ok := match findDependsLine 9 ((pySplitlines content).drop (i + 1)) with
            | none => true
            | some dl => _are_depends_satisfied dl content
          if ok then
            items ++ [{ goal_name := g, item_type := "review", title := title,
                        task_id := _parse_task_id ((pySplitlines content).getD i ""),
                        question_id := none }]
          else items) acc
      = acc ++ ns.filterMap (fun i =>
          match reviewTitle? ((pySplitlines content).getD i "") with
          | none => none
          | some title =>
            if actionableSpec (pySplitlines content) content i then
              some { goal_name := g, item_type := "review", title := title,
                     task_id := _parse_task_id ((pySplitlines content).getD i ""),
                     question_id := none }
            else none) := by
  intro ns
  induction ns with
  | nil => intro acc; simp
  | cons a ns ih =>
    intro acc
    rw [List.foldl_cons, List.filterMap_cons]
    have hgate : (match findDependsLine 9 ((pySplitlines content).drop (a + 1)) with
        | none => true
        | some dl => _are_depends_satisfied dl content) = true
        ↔ actionableSpec (pySplitlines content) content a := by
      rw [findDependsLine_eq_scanDepends]
      exact scanDepends_gate_iff content (((pySplitlines content).drop (a + 1)).take 9)
    cases hrt : reviewTitle? ((pySplitlines content).getD a "") with
    | none =>
      simp only [hrt]
      exact ih acc
    | some title =>
      by_cases hact : actionableSpec (pySplitlines content) content a
      · have hg : (match findDependsLine 9 ((pySplitlines content).drop (a + 1)) with
            | none => true
            | some dl => _are_depends_satisfied dl content) = true := hgate.mpr hact
        simp only [hrt, hg, if_pos hact, if_true]
        rw [ih]
        simp
      · have hg : (match findDependsLine 9 ((pySplitlines content).drop (a + 1)) with
            | none => true
            | some dl => _are_depends_satisfied dl content) = false := by
          cases hmatch : (match findDependsLine 9 ((pySplitlines content).drop (a + 1)) with
            | none => true
            | some dl => _are_depends_satisfied dl content)
          · rfl
          · exact absurd (hgate.mp hmatch) hact
        simp only [hrt, hg, if_neg hact]
        simp only [Bool.false_eq_true, if_false]
        exact ih acc

/-- C4: findActionableReviews includes a review task exactly when the
first Depends sub-line reached in the window of at most nine lines after
the task line, scanning no further than the next task line, has all its
referenced identifiers satisfied, with inclusion when no such sub-line
exists (actionableSpec states this scan as a quantified condition over
the window); in particular, on a document whose first review task
depends on a pending task and whose second review task has no Depends
sub-line, only the second is returned. -/
theorem load_review_tasks_first_depends_gate (g content : String) :
    (load_review_tasks g (some content) =
      (List.range (pySplitlines content).length).filterMap (fun i =>
        match reviewTitle? ((pySplitlines content).getD i "") with
        | none => none
        | some title =>
          if actionableSpec (pySplitlines content) content i then
            some { goal_name := g, item_type := "review", title := title,
                   task_id := _parse_task_id ((pySplitlines content).getD i ""),
                   question_id := none }
          else none))
    ∧ load_review_tasks "g"
        (some "- [ ] T001: a\n- [REVIEW: Gate] T002: v\n  - Depends: T001\n- [REVIEW: Free] T003: w\n") =
      [{ goal_name := "g", item_type := "review", title := "Free",
         task_id := some "T003", question_id := none }] := by
  constructor
  · show (List.range (pySplitlines content).length).foldl _ [] = _
    rw [load_review_tasks_foldl_aux g content (List.range (pySplitlines content).length) []]
    simp
  · rfl
